import Mathlib

/-!
Verification of the sleepycat bot's schedule-evaluation engine and schedule
store, shallowly embedded from `src/bot.py` and `src/database.py`.

Modelling conventions:
  - Calendar dates are modelled as absolute day ordinals (`Nat`).  The source
    compares zero-padded ISO `YYYY-MM-DD` strings produced by
    `strftime('%Y-%m-%d')`; for such strings lexicographic order coincides
    with chronological order, so equality and `<`/`>` on ordinals model the
    source's string comparisons.  Day ordinals are chosen so that ordinal
    `d` falls on Python weekday `d % 7` (0 = Monday), mirroring
    `now.weekday()`.
  - Wall-clock times of day are kept as the strings the store holds
    (`sleep_time`, `wake_time`); `formatHM` models `strftime('%H:%M')` and
    `parseHM` models `datetime.strptime(s, '%H:%M').time()` on the
    two-digit `HH:MM` strings that the command layer's validation regex
    `^([01]\d|2[0-3]):([0-5]\d)$` admits into the store.
-/

namespace Sleepycat

/-- A timezone-aware instant as `check_schedules` sees it: the group-local
date (as a day ordinal), wall-clock fields down to microseconds, mirroring
`now = datetime.now(group_tz)` in `src/bot.py`. -/
structure LocalNow where
  day : Nat
  hour : Nat
  minute : Nat
  second : Nat
  microsecond : Nat
deriving DecidableEq, Repr

/-- The fields of a `datetime` are in range; `datetime.now` always yields
such a value. -/
def LocalNow.valid (t : LocalNow) : Prop :=
  t.hour < 24 ∧ t.minute < 60 ∧ t.second < 60 ∧ t.microsecond < 1000000

instance (t : LocalNow) : Decidable t.valid := by
  unfold LocalNow.valid; infer_instance

/-- Total microseconds since day 0, the comparison and subtraction order on
`datetime` values used by `wake_datetime <= now` and `wake_datetime - now`. -/
def LocalNow.toMicros (t : LocalNow) : Nat :=
  ((t.day * 86400 + t.hour * 3600 + t.minute * 60 + t.second) * 1000000) + t.microsecond

/-- Models `strftime('%H:%M')`: zero-padded two-digit hour and minute. -/
def formatHM (h m : Nat) : String :=
  ⟨[Nat.digitChar (h / 10), Nat.digitChar (h % 10), ':',
    Nat.digitChar (m / 10), Nat.digitChar (m % 10)]⟩

/-- Models `datetime.strptime(s, '%H:%M').time()` on the two-digit `HH:MM` strings
the store holds (see module conventions); `none` models the `ValueError` /
`TypeError` path. -/
def parseHM (s : String) : Option (Nat × Nat) :=
  match s.data with
  | [h1, h2, c, m1, m2] =>
    if c = ':' ∧ h1.isDigit ∧ h2.isDigit ∧ m1.isDigit ∧ m2.isDigit then
      let h := 10 * (h1.toNat - 48) + (h2.toNat - 48)
      let m := 10 * (m1.toNat - 48) + (m2.toNat - 48)
      if h ≤ 23 ∧ m ≤ 59 then some (h, m) else none
    else none
  | _ => none

/-- Modelled from the spec: a row of the `schedules` table.  Columns
`user_id` through `habit_exempt_weekends` follow `_create_schedules_table`
in `src/database.py`; the columns `user_name`, `habit_end_date` and
`reminder_sent_date`, which `check_schedules` in `src/bot.py` reads but
which are missing from that `CREATE TABLE` (the file predates `bot.py`),
are taken from the spec's data model (`display_name`, habit-only
`end_date`, `reminder_sent_date`).  Dates are day ordinals, `NULL` is
`none`; `plan_type` is the stored text. -/
structure Schedule where
  user_id : Nat
  chat_id : Nat
  user_name : String
  sleep_time : String
  wake_time : String
  is_muted : Nat
  plan_type : String
  leave_until : Option Nat
  habit_total_leave_days : Nat
  habit_used_leave_days : Nat
  habit_exempt_weekends : Bool
  habit_end_date : Option Nat
  reminder_sent_date : Option Nat
deriving DecidableEq, Repr

/-- The per-schedule outcomes of one `check_schedules` pass in
`src/bot.py`: the pre-sleep reminder message (with its
`update_reminder_sent` store mutation), the habit-to-normal conversion
(with its `set_schedule` store mutation), the too-short-mute notification
(no restriction applied), and the real `restrict_chat_member` call
carrying its self-expiring `until_date`. -/
inductive Action where
  | sendReminder
  | convertHabitToNormal
  | muteTooShort
  | muteUntilWake (untilDate : LocalNow)
deriving DecidableEq, Repr

/-- The constant `REMINDER_MINUTES` in `src/bot.py`. -/
def REMINDER_MINUTES : Nat := 15

/-- Lines 100–103 of `src/bot.py`: combine today's date with the parsed
wake time at second 0 (`now.replace(hour=..., minute=..., second=0,
microsecond=0)`), and roll forward one day when the result is `<= now`. -/
def wakeDatetimeOf (now : LocalNow) (wh wm : Nat) : LocalNow :=
  if LocalNow.toMicros ⟨now.day, wh, wm, 0, 0⟩ ≤ now.toMicros then
    ⟨now.day + 1, wh, wm, 0, 0⟩
  else ⟨now.day, wh, wm, 0, 0⟩

/-- Line 77 of `src/bot.py`: the habit-expiry test
`schedule['plan_type'] == 'habit' and schedule['habit_end_date'] and
today_date_str > schedule['habit_end_date']` (a `NULL` end date is falsy). -/
def habitExpired (today : Nat) (s : Schedule) : Bool :=
  s.plan_type = "habit" &&
    (match s.habit_end_date with
     | some e => decide (e < today)
     | none => false)

/-- Lines 86–93 of `src/bot.py` ("Reminder Logic") given the parsed sleep
time `(sh, sm)`: the reminder minute is `sleep_time` minus
`REMINDER_MINUTES` (computed via `datetime.combine` minus a `timedelta`,
i.e. modulo one day), both sides compared through `strftime('%H:%M')`, and
the reminder is suppressed when `reminder_sent_date` is already today. -/
def reminderActions (now : LocalNow) (sh sm : Nat) (s : Schedule) : List Action :=
  let reminderTotal := (sh * 60 + sm + 1440 - REMINDER_MINUTES) % 1440
  if formatHM now.hour now.minute = formatHM (reminderTotal / 60) (reminderTotal % 60)
      ∧ s.reminder_sent_date ≠ some now.day then
    [Action.sendReminder]
  else []

/-- Lines 95–115 of `src/bot.py` ("Mute Logic"): fire only when
`now.strftime('%H:%M')` equals the stored `sleep_time` string; parse the
wake time (a parse failure is swallowed by the surrounding `except`);
compute the self-expiring wake datetime; and downgrade to the
too-short-notification when the restriction window would be under
`timedelta(seconds=30)`. -/
def muteActions (now : LocalNow) (s : Schedule) : List Action :=
  if formatHM now.hour now.minute = s.sleep_time then
    match parseHM s.wake_time with
    | none => []
    | some (wh, wm) =>
      if (wakeDatetimeOf now wh wm).toMicros - now.toMicros < 30000000 then
        [Action.muteTooShort]
      else [Action.muteUntilWake (wakeDatetimeOf now wh wm)]
  else []

/-- The per-schedule body of `check_schedules` in `src/bot.py`
(lines 69–115): the leave-day skip, the habit weekend exemption, the habit
expiry conversion, the `sleep_time` parse guard, then the reminder check
and the mute check, in source order.  `now.day` is `today_date_str` and
`now.day % 7 >= 5` is `is_weekend`. -/
def evalSchedule (now : LocalNow) (s : Schedule) : List Action :=
  if s.leave_until = some now.day then []
  else if s.plan_type = "habit" ∧ s.habit_exempt_weekends ∧ 5 ≤ now.day % 7 then []
  else if habitExpired now.day s then
    [Action.convertHabitToNormal]
  else
    match parseHM s.sleep_time with
    | none => []
    | some (sh, sm) => reminderActions now sh sm s ++ muteActions now s

/-- From `set_schedule` in `src/database.py`: the row written by
`INSERT OR REPLACE INTO schedules ... VALUES (?, ?, ?, ?, 'normal', 0, 0, 0)`.
`INSERT OR REPLACE` deletes any existing row with the same `user_id` and
inserts a fresh one, so every column not listed takes its schema default
(`is_muted` 0, `leave_until` / `habit_end_date` / `reminder_sent_date`
`NULL`).  The `user_name` argument follows the call sites in `src/bot.py`
(the `src/database.py` signature predates it). -/
def set_schedule (user_id chat_id : Nat) (user_name sleep_time wake_time : String) :
    Schedule :=
  { user_id := user_id
    chat_id := chat_id
    user_name := user_name
    sleep_time := sleep_time
    wake_time := wake_time
    is_muted := 0
    plan_type := "normal"
    leave_until := none
    habit_total_leave_days := 0
    habit_used_leave_days := 0
    habit_exempt_weekends := false
    habit_end_date := none
    reminder_sent_date := none }

/-- The schedules table as a map from `user_id` (the primary key) to its
row. -/
def Store : Type := Nat → Option Schedule

/-- The function `set_schedule` acting on the whole table: the `INSERT OR REPLACE`
replaces the row keyed by `user_id` and touches no other row. -/
def storeSetSchedule (db : Store) (user_id chat_id : Nat)
    (user_name sleep_time wake_time : String) : Store :=
  fun u =>
    if u = user_id then some (set_schedule user_id chat_id user_name sleep_time wake_time)
    else db u

/-- Modelled from the spec: `update_reminder_sent(user_id, date_str)` is
called by `check_schedules` in `src/bot.py` but missing from
`src/database.py`; per the spec it is `mark_reminder_sent(user_id, date)`,
recording the date of the last successful pre-sleep reminder on the row. -/
def update_reminder_sent (s : Schedule) (d : Nat) : Schedule :=
  { s with reminder_sent_date := some d }

/-- The string result codes returned by `apply_leave_day` in
`src/database.py`. -/
inductive LeaveResult where
  | success_normal
  | success_habit
  | no_days_left
  | no_plan
deriving DecidableEq, Repr

/-- From `apply_leave_day(user_id, date_str)` in `src/database.py`, acting on
the user's row (`none` = no row): a normal plan just gets `leave_until`;
a habit plan consumes a leave day only while `habit_used_leave_days <
habit_total_leave_days`, otherwise nothing is written; any other
`plan_type` returns `no_plan` unchanged. -/
def apply_leave_day (sched : Option Schedule) (d : Nat) :
    Option Schedule × LeaveResult :=
  match sched with
  | none => (none, LeaveResult.no_plan)
  | some s =>
    if s.plan_type = "normal" then
      (some { s with leave_until := some d }, LeaveResult.success_normal)
    else if s.plan_type = "habit" then
      if s.habit_used_leave_days < s.habit_total_leave_days then
        (some { s with leave_until := some d,
                       habit_used_leave_days := s.habit_used_leave_days + 1 },
         LeaveResult.success_habit)
      else (some s, LeaveResult.no_days_left)
    else (some s, LeaveResult.no_plan)

/-- The time-format validation regex `^([01]\d|2[0-3]):([0-5]\d)$` used by
`set_sleep` in `src/bot.py`. -/
def timePattern (s : String) : Bool :=
  match s.data with
  | [h1, h2, c, m1, m2] =>
    c = ':' &&
      (((h1 = '0' || h1 = '1') && h2.isDigit) ||
        (h1 = '2' && '0' ≤ h2 && h2 ≤ '3')) &&
      ('0' ≤ m1 && m1 ≤ '5') && m2.isDigit
  | _ => false

/-- The `set` command handler `set_sleep` in `src/bot.py`, as its effect on
the caller's own row: a `habit` row rejects the request up front
(lines 191–194, before every other check); a group creator is refused;
otherwise two well-formed `HH:MM` arguments replace the row via
`db.set_schedule`.  Every rejection path only sends a reply and leaves the
row unchanged. -/
def set_sleep (sched : Option Schedule) (is_creator : Bool) (args : List String)
    (user_id chat_id : Nat) (user_name : String) : Option Schedule :=
  if sched.any fun s => s.plan_type = "habit" then sched
  else if is_creator then sched
  else
    match args with
    | [sleep_time_str, wake_time_str] =>
      if timePattern sleep_time_str && timePattern wake_time_str then
        some (set_schedule user_id chat_id user_name sleep_time_str wake_time_str)
      else sched
    | _ => sched

/-- The `remove` command handler `remove_schedule_command` in `src/bot.py`,
as its effect on the caller's own row: a `habit` row rejects the request
(lines 226–230); otherwise `db.remove_schedule` deletes the row. -/
def remove_schedule_command (sched : Option Schedule) : Option Schedule :=
  if sched.any fun s => s.plan_type = "habit" then sched else none

/-- One owner-issued request relevant to the caller's own schedule: a
`/set` attempt (with the creator flag and raw arguments) or a `/remove`
attempt. -/
inductive OwnerCmd where
  | set (is_creator : Bool) (args : List String)
  | remove
deriving DecidableEq, Repr

/-- Dispatch one owner request to its handler. -/
def runOwnerCmd (user_id chat_id : Nat) (user_name : String)
    (sched : Option Schedule) : OwnerCmd → Option Schedule
  | OwnerCmd.set c args => set_sleep sched c args user_id chat_id user_name
  | OwnerCmd.remove => remove_schedule_command sched

/-- A sequence of owner requests applied to the caller's row. -/
def runOwnerCmds (user_id chat_id : Nat) (user_name : String)
    (sched : Option Schedule) (cmds : List OwnerCmd) : Option Schedule :=
  cmds.foldl (runOwnerCmd user_id chat_id user_name) sched

/-- One chat group as `check_schedules` sees it after partitioning the
schedules by `chat_id`: the group's configured timezone string and its
schedules. -/
structure ChatGroup where
  chat_id : Nat
  timezone : String
  schedules : List Schedule
deriving DecidableEq, Repr

/-- One polling tick of `check_schedules` in `src/bot.py` over the groups.
`tz` models `pytz.timezone` followed by `datetime.now(group_tz)`: it maps
a timezone string to the group-local now, or `none` when
`pytz.UnknownTimeZoneError` is raised, in which case the `except ...
continue` skips the whole group.  The result pairs each produced action
with the `user_id` it targets. -/
def check_schedules (tz : String → Option LocalNow) (groups : List ChatGroup) :
    List (Nat × Action) :=
  groups.flatMap fun g =>
    match tz g.timezone with
    | none => []
    | some now =>
      g.schedules.flatMap fun s => (evalSchedule now s).map fun a => (s.user_id, a)

/-! ### Concrete rows and instants used by witnesses and counterexamples -/

/-- A concrete normal-plan row (sleep `23:00`, wake `07:00`). -/
def sampleSchedule : Schedule :=
  { user_id := 7
    chat_id := 1
    user_name := "miko"
    sleep_time := "23:00"
    wake_time := "07:00"
    is_muted := 0
    plan_type := "normal"
    leave_until := none
    habit_total_leave_days := 0
    habit_used_leave_days := 0
    habit_exempt_weekends := false
    habit_end_date := none
    reminder_sent_date := none }

/-- Sleep and wake both `23:00`: the 0-second-gap configuration. -/
def c1Sched : Schedule := { sampleSchedule with wake_time := "23:00" }

/-- A Friday (day ordinal 4) at exactly `23:00:00.000000` local. -/
def c1Now : LocalNow := ⟨4, 23, 0, 0, 0⟩

/-- An expired habit plan (end date day 9) that is on leave today (day 10). -/
def c2CexSched : Schedule :=
  { sampleSchedule with plan_type := "habit", habit_end_date := some 9,
                        leave_until := some 10 }

/-- An expired habit plan (end date day 9), not on leave. -/
def c2WitSched : Schedule :=
  { sampleSchedule with plan_type := "habit", habit_end_date := some 9 }

/-- Day 10 (a Thursday) at `12:00` local. -/
def c2Now : LocalNow := ⟨10, 12, 0, 0, 0⟩

/-- A row whose reminder was already sent today (day 10). -/
def c3Sched : Schedule := { sampleSchedule with reminder_sent_date := some 10 }

/-- Day 10 at the reminder minute `22:45` local. -/
def c3Now : LocalNow := ⟨10, 22, 45, 0, 0⟩

/-- Day 10 at exactly the sample sleep time `23:00` local. -/
def c4Now : LocalNow := ⟨10, 23, 0, 0, 0⟩

/-- A row on leave for day 10. -/
def c5Sched : Schedule := { sampleSchedule with leave_until := some 10 }

/-- A weekend-exempt habit row. -/
def c6Sched : Schedule :=
  { sampleSchedule with plan_type := "habit", habit_exempt_weekends := true }

/-- A Saturday (day ordinal 5) at exactly the sample sleep time `23:00`. -/
def c6Now : LocalNow := ⟨5, 23, 0, 0, 0⟩

/-- A habit row with 2 of 3 leave days used, as in the spec's example. -/
def c7Sched : Schedule :=
  { sampleSchedule with plan_type := "habit", habit_total_leave_days := 3,
                        habit_used_leave_days := 2 }

/-- A habit row for the owner-lock claim. -/
def c8Sched : Schedule := { sampleSchedule with plan_type := "habit" }

/-- A pre-existing habit row with a pending leave day, to be overwritten. -/
def c10OldRow : Schedule :=
  { sampleSchedule with plan_type := "habit", leave_until := some 10,
                        habit_total_leave_days := 3, habit_used_leave_days := 1 }

/-- A zone resolver that recognizes only the identifier `UTC`. -/
def sampleTz : String → Option LocalNow :=
  fun z => if z = "UTC" then some ⟨10, 23, 0, 0, 0⟩ else none

/-- A group with a recognized timezone. -/
def c9GoodGroup : ChatGroup := ⟨1, "UTC", [sampleSchedule]⟩

/-- A group whose configured timezone identifier is unrecognized. -/
def c9BadGroup : ChatGroup :=
  ⟨2, "Mars/Olympus", [{ sampleSchedule with user_id := 8, chat_id := 2 }]⟩

/-! ### Helper lemmas -/

set_option maxHeartbeats 1000000 in
/-- Parsing inverts formatting on in-range times: parsing a formatted
`HH:MM` string recovers the hour and minute. -/
theorem parseHM_formatHM : ∀ h < 24, ∀ m < 60, parseHM (formatHM h m) = some (h, m) := by
  decide

/-- The reminder branch never produces a mute action. -/
theorem muteUntilWake_not_mem_reminderActions (now : LocalNow) (sh sm : Nat)
    (s : Schedule) (u : LocalNow) :
    Action.muteUntilWake u ∉ reminderActions now sh sm s := by
  simp only [reminderActions]
  split <;> simp

/-- The reminder branch never produces the too-short notification. -/
theorem muteTooShort_not_mem_reminderActions (now : LocalNow) (sh sm : Nat)
    (s : Schedule) :
    Action.muteTooShort ∉ reminderActions now sh sm s := by
  simp only [reminderActions]
  split <;> simp

/-- The mute branch never produces a reminder action. -/
theorem sendReminder_not_mem_muteActions (now : LocalNow) (s : Schedule) :
    Action.sendReminder ∉ muteActions now s := by
  unfold muteActions
  split
  · split
    · simp
    · split <;> simp
  · simp

/-- Any action of one evaluation is either the habit conversion, or comes
from the reminder or mute branch after `sleep_time` parsed. -/
theorem mem_evalSchedule (now : LocalNow) (s : Schedule) (a : Action)
    (h : a ∈ evalSchedule now s) :
    a = Action.convertHabitToNormal ∨
    ∃ sh sm, parseHM s.sleep_time = some (sh, sm) ∧
      (a ∈ reminderActions now sh sm s ∨ a ∈ muteActions now s) := by
  unfold evalSchedule at h
  split at h
  · simp at h
  · split at h
    · simp at h
    · split at h
      · simp at h
        exact Or.inl h
      · cases hp : parseHM s.sleep_time with
        | none => rw [hp] at h; simp at h
        | some p =>
          obtain ⟨sh, sm⟩ := p
          rw [hp] at h
          exact Or.inr ⟨sh, sm, rfl, List.mem_append.mp h⟩

/-- A real mute action pins down the whole mute branch: the clock matched
`sleep_time`, the wake time parsed, the until-date is the combined-and-
rolled wake datetime, and the 30-second guard passed. -/
theorem mem_muteActions_muteUntilWake (now : LocalNow) (s : Schedule) (u : LocalNow)
    (h : Action.muteUntilWake u ∈ muteActions now s) :
    formatHM now.hour now.minute = s.sleep_time ∧
    ∃ wh wm, parseHM s.wake_time = some (wh, wm) ∧
      u = wakeDatetimeOf now wh wm ∧
      30000000 ≤ (wakeDatetimeOf now wh wm).toMicros - now.toMicros := by
  unfold muteActions at h
  by_cases hm : formatHM now.hour now.minute = s.sleep_time
  · rw [if_pos hm] at h
    refine ⟨hm, ?_⟩
    cases hw : parseHM s.wake_time with
    | none => rw [hw] at h; simp at h
    | some p =>
      obtain ⟨wh, wm⟩ := p
      rw [hw] at h
      replace h : Action.muteUntilWake u ∈
          (if (wakeDatetimeOf now wh wm).toMicros - now.toMicros < 30000000 then
            [Action.muteTooShort]
          else [Action.muteUntilWake (wakeDatetimeOf now wh wm)]) := h
      by_cases hs : (wakeDatetimeOf now wh wm).toMicros - now.toMicros < 30000000
      · rw [if_pos hs] at h
        simp at h
      · rw [if_neg hs] at h
        simp at h
        exact ⟨wh, wm, rfl, h, Nat.le_of_not_lt hs⟩
  · rw [if_neg hm] at h
    simp at h

/-- A too-short notification pins down the mute branch with the 30-second
guard failing. -/
theorem mem_muteActions_muteTooShort (now : LocalNow) (s : Schedule)
    (h : Action.muteTooShort ∈ muteActions now s) :
    formatHM now.hour now.minute = s.sleep_time ∧
    ∃ wh wm, parseHM s.wake_time = some (wh, wm) ∧
      (wakeDatetimeOf now wh wm).toMicros - now.toMicros < 30000000 := by
  unfold muteActions at h
  by_cases hm : formatHM now.hour now.minute = s.sleep_time
  · rw [if_pos hm] at h
    refine ⟨hm, ?_⟩
    cases hw : parseHM s.wake_time with
    | none => rw [hw] at h; simp at h
    | some p =>
      obtain ⟨wh, wm⟩ := p
      rw [hw] at h
      replace h : Action.muteTooShort ∈
          (if (wakeDatetimeOf now wh wm).toMicros - now.toMicros < 30000000 then
            [Action.muteTooShort]
          else [Action.muteUntilWake (wakeDatetimeOf now wh wm)]) := h
      by_cases hs : (wakeDatetimeOf now wh wm).toMicros - now.toMicros < 30000000
      · exact ⟨wh, wm, rfl, hs⟩
      · rw [if_neg hs] at h
        simp at h
  · rw [if_neg hm] at h
    simp at h

/-- When the wake clock-time equals the current clock-time, the combined
wake datetime is not after `now` (its seconds and microseconds are zeroed),
so it is rolled forward one full day, and the resulting restriction window
is a day minus the sub-minute part of `now` — far above 30 seconds. -/
theorem wakeDatetimeOf_same_minute (now : LocalNow) (hv : now.valid) :
    wakeDatetimeOf now now.hour now.minute = ⟨now.day + 1, now.hour, now.minute, 0, 0⟩ ∧
    30000000 ≤ (LocalNow.toMicros ⟨now.day + 1, now.hour, now.minute, 0, 0⟩) - now.toMicros := by
  obtain ⟨h1, h2, h3, h4⟩ := hv
  have hle : LocalNow.toMicros ⟨now.day, now.hour, now.minute, 0, 0⟩ ≤ now.toMicros := by
    simp only [LocalNow.toMicros]
    omega
  constructor
  · unfold wakeDatetimeOf
    rw [if_pos hle]
  · simp only [LocalNow.toMicros]
    omega

/-! ### The claims -/

/-- C1 counterexample: with `sleep_time = wake_time = "23:00"` and the
current local time exactly `23:00`, the evaluation does not downgrade to
`MuteTooShort`; it performs a real mute until `23:00` of the next day
(the wake datetime is rolled forward a full day before the 30-second
check). -/
theorem c1_counterexample :
    (c1Sched.sleep_time = c1Sched.wake_time ∧
      formatHM c1Now.hour c1Now.minute = c1Sched.sleep_time) ∧
    Action.muteTooShort ∉ evalSchedule c1Now c1Sched ∧
    evalSchedule c1Now c1Sched = [Action.muteUntilWake ⟨5, 23, 0, 0, 0⟩] := by
  decide

/-- C1 (amended): the platform restrict operation is never invoked with a
restriction window shorter than 30 seconds; and for `sleep_time =
wake_time` evaluated at the sleep minute the evaluation produces no
`MuteTooShort` — any mute it performs is a real mute until the same
wall-clock time on the next day. -/
theorem c1_amended_mute_window (s : Schedule) (now : LocalNow) (hv : now.valid) :
    (∀ u, Action.muteUntilWake u ∈ evalSchedule now s →
      30000000 ≤ u.toMicros - now.toMicros) ∧
    (s.sleep_time = s.wake_time → formatHM now.hour now.minute = s.sleep_time →
      Action.muteTooShort ∉ evalSchedule now s ∧
      ∀ u, Action.muteUntilWake u ∈ evalSchedule now s →
        u = ⟨now.day + 1, now.hour, now.minute, 0, 0⟩) := by
  constructor
  · intro u hu
    rcases mem_evalSchedule now s _ hu with h | ⟨sh, sm, hp, h | h⟩
    · simp at h
    · exact absurd h (muteUntilWake_not_mem_reminderActions now sh sm s u)
    · obtain ⟨hm, wh, wm, hw, hu_eq, hge⟩ := mem_muteActions_muteUntilWake now s u h
      rw [hu_eq]
      exact hge
  · intro hsw hfmt
    have hwt : s.wake_time = formatHM now.hour now.minute := by rw [← hsw, ← hfmt]
    have hp' := parseHM_formatHM now.hour hv.1 now.minute hv.2.1
    constructor
    · intro hts
      rcases mem_evalSchedule now s _ hts with h | ⟨sh, sm, hp, h | h⟩
      · simp at h
      · exact absurd h (muteTooShort_not_mem_reminderActions now sh sm s)
      · obtain ⟨hm, wh, wm, hw, hlt⟩ := mem_muteActions_muteTooShort now s h
        rw [hwt, hp'] at hw
        simp only [Option.some.injEq, Prod.mk.injEq] at hw
        obtain ⟨e1, e2⟩ := hw
        rw [← e1, ← e2, (wakeDatetimeOf_same_minute now hv).1] at hlt
        have := (wakeDatetimeOf_same_minute now hv).2
        omega
    · intro u hu
      rcases mem_evalSchedule now s _ hu with h | ⟨sh, sm, hp, h | h⟩
      · simp at h
      · exact absurd h (muteUntilWake_not_mem_reminderActions now sh sm s u)
      · obtain ⟨hm, wh, wm, hw, hu_eq, hge⟩ := mem_muteActions_muteUntilWake now s u h
        rw [hwt, hp'] at hw
        simp only [Option.some.injEq, Prod.mk.injEq] at hw
        obtain ⟨e1, e2⟩ := hw
        rw [hu_eq, ← e1, ← e2, (wakeDatetimeOf_same_minute now hv).1]

/-- C1 witness: at the concrete 0-second-gap input, no `MuteTooShort` is
produced and the real mute's window is at least 30 seconds. -/
theorem c1_witness :
    Action.muteTooShort ∉ evalSchedule c1Now c1Sched ∧
    30000000 ≤ LocalNow.toMicros ⟨5, 23, 0, 0, 0⟩ - c1Now.toMicros := by
  have h := c1_amended_mute_window c1Sched c1Now (by decide)
  exact ⟨(h.2 (by decide) (by decide)).1, h.1 ⟨5, 23, 0, 0, 0⟩ (by decide)⟩

/-- C2 counterexample: a habit schedule with `end_date` (day 9) strictly
before today (day 10) but with `leave_until = today` produces no action
at all — in particular not the habit-to-normal conversion the claim
requires of every such schedule. -/
theorem c2_counterexample :
    (c2CexSched.plan_type = "habit" ∧ c2CexSched.habit_end_date = some 9 ∧
      9 < c2Now.day) ∧
    evalSchedule c2Now c2CexSched = [] := by
  decide

/-- C2 (amended): for every habit schedule with a set `end_date` strictly
earlier than today that is not skipped by an earlier guard (`leave_until =
today`, or weekend with `exempt_weekends`), one tick produces exactly the
habit-to-normal conversion — whose store mutation rewrites the row to a
normal plan with all habit fields cleared — and no mute and no reminder
action. -/
theorem c2_habit_expiry (s : Schedule) (now : LocalNow) (e : Nat)
    (hplan : s.plan_type = "habit") (he : s.habit_end_date = some e)
    (hlt : e < now.day) (hleave : s.leave_until ≠ some now.day)
    (hwk : ¬(s.habit_exempt_weekends = true ∧ 5 ≤ now.day % 7)) :
    evalSchedule now s = [Action.convertHabitToNormal] ∧
    set_schedule s.user_id s.chat_id s.user_name s.sleep_time s.wake_time =
      { user_id := s.user_id, chat_id := s.chat_id, user_name := s.user_name,
        sleep_time := s.sleep_time, wake_time := s.wake_time, is_muted := 0,
        plan_type := "normal", leave_until := none,
        habit_total_leave_days := 0, habit_used_leave_days := 0,
        habit_exempt_weekends := false, habit_end_date := none,
        reminder_sent_date := none } := by
  refine ⟨?_, rfl⟩
  have hexp : habitExpired now.day s = true := by
    simp [habitExpired, hplan, he, hlt]
  unfold evalSchedule
  rw [if_neg hleave, if_neg (fun hc => hwk ⟨hc.2.1, hc.2.2⟩), if_pos hexp]

/-- C2 witness: the concrete expired habit row with no earlier guard
firing converts and nothing else happens. -/
theorem c2_witness :
    evalSchedule c2Now c2WitSched = [Action.convertHabitToNormal] ∧
    set_schedule c2WitSched.user_id c2WitSched.chat_id c2WitSched.user_name
        c2WitSched.sleep_time c2WitSched.wake_time =
      { user_id := c2WitSched.user_id, chat_id := c2WitSched.chat_id,
        user_name := c2WitSched.user_name, sleep_time := c2WitSched.sleep_time,
        wake_time := c2WitSched.wake_time, is_muted := 0,
        plan_type := "normal", leave_until := none,
        habit_total_leave_days := 0, habit_used_leave_days := 0,
        habit_exempt_weekends := false, habit_end_date := none,
        reminder_sent_date := none } :=
  c2_habit_expiry c2WitSched c2Now 9 (by decide) (by decide) (by decide)
    (by decide) (by decide)

/-- C3: for every schedule whose `reminder_sent_date` equals today's local
date, evaluation produces no `SendReminder` — regardless of the current
minute, and (the evaluation being a pure function of `now` and the row)
identically on every repeated evaluation at the same minute. -/
theorem c3_reminder_idempotent (s : Schedule) (now : LocalNow)
    (h : s.reminder_sent_date = some now.day) :
    Action.sendReminder ∉ evalSchedule now s := by
  intro hmem
  rcases mem_evalSchedule now s _ hmem with h' | ⟨sh, sm, hp, h' | h'⟩
  · simp at h'
  · simp only [reminderActions] at h'
    split at h'
    next hc => exact hc.2 h
    next hc => simp at h'
  · exact sendReminder_not_mem_muteActions now s h'

/-- C3 witness: at the reminder minute itself (`22:45` for a `23:00`
sleep time), a row already marked for today gets no reminder. -/
theorem c3_witness : Action.sendReminder ∉ evalSchedule c3Now c3Sched :=
  c3_reminder_idempotent c3Sched c3Now (by decide)

/-- C4: when the current local `HH:MM` equals `sleep_time` and `wake_time`
parses, any real mute's until-date is obtained by combining today's date
with the wake time: rolled forward exactly one day when that combination
is less than or equal to `now`, and kept on today's date otherwise.  In
particular (witness) for sleep `23:00`, wake `07:00`, evaluated at `23:00`
on day 10, the until-date is `07:00` on day 11. -/
theorem c4_wake_datetime (s : Schedule) (now : LocalNow) (wh wm : Nat)
    (_hsleep : formatHM now.hour now.minute = s.sleep_time)
    (hw : parseHM s.wake_time = some (wh, wm)) :
    ∀ u, Action.muteUntilWake u ∈ evalSchedule now s →
      (LocalNow.toMicros ⟨now.day, wh, wm, 0, 0⟩ ≤ now.toMicros →
        u = ⟨now.day + 1, wh, wm, 0, 0⟩) ∧
      (now.toMicros < LocalNow.toMicros ⟨now.day, wh, wm, 0, 0⟩ →
        u = ⟨now.day, wh, wm, 0, 0⟩) := by
  intro u hu
  rcases mem_evalSchedule now s _ hu with h | ⟨sh, sm, hp, h | h⟩
  · simp at h
  · exact absurd h (muteUntilWake_not_mem_reminderActions now sh sm s u)
  · obtain ⟨hm, wh', wm', hw', hu_eq, hge⟩ := mem_muteActions_muteUntilWake now s u h
    rw [hw] at hw'
    simp only [Option.some.injEq, Prod.mk.injEq] at hw'
    obtain ⟨e1, e2⟩ := hw'
    rw [← e1, ← e2] at hu_eq
    constructor
    · intro hle
      rw [hu_eq]
      unfold wakeDatetimeOf
      rw [if_pos hle]
    · intro hgt
      rw [hu_eq]
      unfold wakeDatetimeOf
      rw [if_neg (not_le.mpr hgt)]

/-- C4 witness: sleep `23:00`, wake `07:00`, at local `23:00` on day 10 —
the combined wake datetime `07:00` day 10 is before now, so the until-date
is `07:00` on day 11, and that is exactly the mute the evaluation emits. -/
theorem c4_witness :
    ((LocalNow.toMicros ⟨10, 7, 0, 0, 0⟩ ≤ LocalNow.toMicros c4Now →
        (⟨11, 7, 0, 0, 0⟩ : LocalNow) = ⟨11, 7, 0, 0, 0⟩) ∧
      (LocalNow.toMicros c4Now < LocalNow.toMicros ⟨10, 7, 0, 0, 0⟩ →
        (⟨11, 7, 0, 0, 0⟩ : LocalNow) = ⟨10, 7, 0, 0, 0⟩)) ∧
    evalSchedule c4Now sampleSchedule = [Action.muteUntilWake ⟨11, 7, 0, 0, 0⟩] :=
  ⟨c4_wake_datetime sampleSchedule c4Now 7 0 (by decide) (by decide)
      ⟨11, 7, 0, 0, 0⟩ (by decide),
    by decide⟩

/-- C5: a schedule on leave today produces no action and no store
mutation this tick, whatever its times or plan type. -/
theorem c5_leave_skip (s : Schedule) (now : LocalNow)
    (h : s.leave_until = some now.day) :
    evalSchedule now s = [] := by
  unfold evalSchedule
  rw [if_pos h]

/-- C5 witness: the concrete on-leave row at its own sleep minute. -/
theorem c5_witness : evalSchedule ⟨10, 23, 0, 0, 0⟩ c5Sched = [] :=
  c5_leave_skip c5Sched ⟨10, 23, 0, 0, 0⟩ (by decide)

/-- C6: a weekend-exempt habit schedule evaluated on a Saturday or Sunday
produces no action — the weekend guard sits before the reminder and mute
checks, so this holds even at the sleep minute or the reminder minute. -/
theorem c6_weekend_exempt (s : Schedule) (now : LocalNow)
    (h1 : s.plan_type = "habit") (h2 : s.habit_exempt_weekends = true)
    (h3 : 5 ≤ now.day % 7) :
    evalSchedule now s = [] := by
  unfold evalSchedule
  by_cases hc : s.leave_until = some now.day
  · rw [if_pos hc]
  · rw [if_neg hc, if_pos ⟨h1, h2, h3⟩]

/-- C6 witness: the weekend-exempt habit row on a Saturday at exactly its
sleep minute. -/
theorem c6_witness : evalSchedule c6Now c6Sched = [] :=
  c6_weekend_exempt c6Sched c6Now (by decide) (by decide) (by decide)

/-- C7: applying a leave day to a habit schedule with `used < total`
increments `used` by exactly one, sets `leave_until`, and returns
`success_habit`; with `used >= total` it returns `no_days_left` with the
row untouched.  So `used` never decreases, and grows only while strictly
below `total`. -/
theorem c7_apply_leave_day (s : Schedule) (d : Nat)
    (hplan : s.plan_type = "habit") :
    (s.habit_used_leave_days < s.habit_total_leave_days →
      apply_leave_day (some s) d =
        (some { s with leave_until := some d,
                       habit_used_leave_days := s.habit_used_leave_days + 1 },
         LeaveResult.success_habit)) ∧
    (s.habit_total_leave_days ≤ s.habit_used_leave_days →
      apply_leave_day (some s) d = (some s, LeaveResult.no_days_left)) := by
  have hn : ¬s.plan_type = "normal" := by
    rw [hplan]
    decide
  constructor
  · intro hlt
    simp only [apply_leave_day]
    rw [if_neg hn, if_pos hplan, if_pos hlt]
  · intro hge
    simp only [apply_leave_day]
    rw [if_neg hn, if_pos hplan, if_neg (Nat.not_lt.mpr hge)]

/-- C7 witness: the spec's own example — `used = 2, total = 3` applies to
`used = 3` with `success_habit`; a further application yields
`no_days_left` without mutation. -/
theorem c7_witness :
    apply_leave_day (some c7Sched) 10 =
      (some { c7Sched with leave_until := some 10, habit_used_leave_days := 3 },
       LeaveResult.success_habit) ∧
    apply_leave_day (some { c7Sched with habit_used_leave_days := 3 }) 11 =
      (some { c7Sched with habit_used_leave_days := 3 },
       LeaveResult.no_days_left) :=
  ⟨(c7_apply_leave_day c7Sched 10 (by decide)).1 (by decide),
    (c7_apply_leave_day { c7Sched with habit_used_leave_days := 3 } 11
      (by decide)).2 (by decide)⟩

/-- C8: while a user's stored plan is a habit plan, any sequence of the
owner's own `/set` and `/remove` requests leaves the stored row exactly as
it was — both handlers reject before touching the store. -/
theorem c8_habit_locked (s : Schedule) (uid cid : Nat) (name : String)
    (hplan : s.plan_type = "habit") (cmds : List OwnerCmd) :
    runOwnerCmds uid cid name (some s) cmds = some s := by
  induction cmds with
  | nil => rfl
  | cons c cs ih =>
    have hstep : runOwnerCmd uid cid name (some s) c = some s := by
      cases c with
      | set cr args => simp [runOwnerCmd, set_sleep, Option.any, hplan]
      | remove => simp [runOwnerCmd, remove_schedule_command, Option.any, hplan]
    simp only [runOwnerCmds, List.foldl_cons, hstep]
    exact ih

/-- C8 witness: a habit row survives a well-formed `/set` followed by
`/remove`. -/
theorem c8_witness :
    runOwnerCmds 7 1 "miko" (some c8Sched)
      [OwnerCmd.set false ["22:00", "06:00"], OwnerCmd.remove] = some c8Sched :=
  c8_habit_locked c8Sched 7 1 "miko" (by decide)
    [OwnerCmd.set false ["22:00", "06:00"], OwnerCmd.remove]

/-- C9: a group whose timezone string the resolver rejects is skipped
whole — its schedules contribute nothing to the tick — while every other
group, before or after it, is processed exactly as if the bad group were
absent; the tick itself always completes. -/
theorem c9_unknown_timezone_skip (tz : String → Option LocalNow)
    (g : ChatGroup) (pre post : List ChatGroup) (h : tz g.timezone = none) :
    check_schedules tz (pre ++ g :: post) = check_schedules tz (pre ++ post) := by
  unfold check_schedules
  rw [List.flatMap_append, List.flatMap_cons, List.flatMap_append, h]
  simp

/-- C9 witness: with a resolver that only knows `UTC`, a tick over a good
group followed by a `Mars/Olympus` group equals the tick over the good
group alone. -/
theorem c9_witness :
    check_schedules sampleTz [c9GoodGroup, c9BadGroup] =
      check_schedules sampleTz [c9GoodGroup] :=
  c9_unknown_timezone_skip sampleTz c9BadGroup [c9GoodGroup] [] (by decide)

/-- C10: the normal-plan set operation replaces the whole row keyed by
`user_id`: the stored row afterwards is exactly the fresh normal row —
`plan_type` normal, habit fields zeroed, `leave_until` cleared to absent,
`is_muted` reset to 0 — independent of whatever row (with whatever pending
leave) was there before; rows of other users are untouched. -/
theorem c10_set_schedule_replaces_row (db : Store) (uid cid : Nat)
    (name sl wk : String) :
    storeSetSchedule db uid cid name sl wk uid =
      some { user_id := uid, chat_id := cid, user_name := name,
             sleep_time := sl, wake_time := wk, is_muted := 0,
             plan_type := "normal", leave_until := none,
             habit_total_leave_days := 0, habit_used_leave_days := 0,
             habit_exempt_weekends := false, habit_end_date := none,
             reminder_sent_date := none } ∧
    ∀ u, u ≠ uid → storeSetSchedule db uid cid name sl wk u = db u := by
  constructor
  · simp [storeSetSchedule, set_schedule]
  · intro u hu
    simp [storeSetSchedule, hu]

/-- C10 witness: updating over a store holding a habit row with a pending
leave day yields the fresh normal row with no leave, and leaves the
neighbouring user's row alone. -/
theorem c10_witness :
    storeSetSchedule (fun _ => some c10OldRow) 7 1 "miko" "22:00" "06:00" 7 =
      some { user_id := 7, chat_id := 1, user_name := "miko",
             sleep_time := "22:00", wake_time := "06:00", is_muted := 0,
             plan_type := "normal", leave_until := none,
             habit_total_leave_days := 0, habit_used_leave_days := 0,
             habit_exempt_weekends := false, habit_end_date := none,
             reminder_sent_date := none } ∧
    storeSetSchedule (fun _ => some c10OldRow) 7 1 "miko" "22:00" "06:00" 8 =
      some c10OldRow :=
  ⟨(c10_set_schedule_replaces_row (fun _ => some c10OldRow) 7 1 "miko"
      "22:00" "06:00").1,
    (c10_set_schedule_replaces_row (fun _ => some c10OldRow) 7 1 "miko"
      "22:00" "06:00").2 8 (by decide)⟩

end Sleepycat
